import Mathlib

/-!
Shallow embedding of the jump-flood outline pipeline of the bevy_jfa crate
(src/jfa.rs, src/jfa_init.rs, src/outline.rs, src/resources.rs, src/mask.rs),
with theorems settling the claims about its specification.
-/
namespace BevyJfa

/-! ## Jump distance sequence (src/jfa.rs lines 128-131, src/resources.rs lines 260-270) -/

/-- Fixed maximal exponent used by JfaNode::run (src/jfa.rs line 128: let max_exp = 8). -/
def maxExp : Nat := 8

/-- Jump distances stored in the dynamic uniform buffer: for exp in 0..16 the entry at
index exp holds dist = 2^exp (src/resources.rs lines 260-270). -/
def jfaDistances : List Nat := (List.range 16).map (fun e => 2 ^ e)

/-- Jump distance selected on iteration it: the dynamic offset at index exp = max_exp - it
is bound (src/jfa.rs lines 130 and 170), so the distance is jfaDistances[max_exp - it]. -/
def jumpDistAt (it : Nat) : Nat := jfaDistances.getD (maxExp - it) 0

/-- The whole step sequence executed by JfaNode::run: iterations it = 0..=max_exp
(src/jfa.rs line 129). -/
def jfaStepSeq : List Nat := (List.range (maxExp + 1)).map jumpDistAt

/-- Maximum of the executed step sequence. -/
def maxStep : Nat := jfaStepSeq.foldr max 0

/-- Fuel-based ceiling base-2 logarithm: clog2Aux fuel n is the least k with n ≤ 2^k,
provided fuel ≥ n. -/
def clog2Aux : Nat → Nat → Nat
  | 0, _ => 0
  | fuel + 1, n => if n ≤ 1 then 0 else clog2Aux fuel ((n + 1) / 2) + 1

/-- Ceiling base-2 logarithm, executable. -/
def clog2 (n : Nat) : Nat := clog2Aux n n

/-- Smallest power of two greater than or equal to n (for n ≥ 1). -/
def smallestPow2GE (n : Nat) : Nat := 2 ^ clog2 n

end BevyJfa

namespace BevyJfa

/-! ## Ping-pong texture roles (src/jfa.rs lines 103-140, src/resources.rs lines 279-294) -/

/-- The two jump-flood ping-pong textures held by OutlineResources. -/
inductive JfaTex
  | primary
  | secondary
deriving DecidableEq, Repr

/-- Render target of iteration it: odd iterations attach the primary output, even
iterations the secondary output (src/jfa.rs lines 134-140). -/
def jfaWriteTarget (it : Nat) : JfaTex :=
  if it % 2 = 1 then JfaTex.primary else JfaTex.secondary

/-- Bind group selected on iteration it: odd iterations use jfa_primary_bind_group, even
iterations jfa_secondary_bind_group (src/jfa.rs lines 134-140). -/
def jfaBindGroupSel (it : Nat) : JfaTex :=
  if it % 2 = 1 then JfaTex.primary else JfaTex.secondary

/-- Texture sampled through each bind group: jfa_primary_bind_group binds the secondary
output's view as its input, jfa_secondary_bind_group binds the primary output's view
(src/resources.rs lines 279-294). -/
def jfaBindGroupInput : JfaTex → JfaTex
  | JfaTex.primary => JfaTex.secondary
  | JfaTex.secondary => JfaTex.primary

/-- Texture read (sampled) by iteration it. -/
def jfaReadSource (it : Nat) : JfaTex := jfaBindGroupInput (jfaBindGroupSel it)

/-- Texture view exposed by JfaNode::run on its OUT_JUMP output slot: the secondary
output's default view (src/jfa.rs lines 103-109). -/
def jfaOutJumpSlot : JfaTex := JfaTex.secondary

/-- List of iteration indices executed by JfaNode::run: 0..=max_exp (src/jfa.rs 129). -/
def jfaIterations : List Nat := List.range (maxExp + 1)

end BevyJfa

namespace BevyJfa

/-! ## JFA init pass stencil test (src/jfa_init.rs lines 45-61 and 134-166) -/

/-- Stencil comparison functions of the render API. -/
inductive CompareFn
  | never
  | less
  | equal
  | lessEqual
  | greater
  | notEqual
  | greaterEqual
  | always
deriving DecidableEq, Repr

/-- Front-face stencil comparison configured by JfaInitPipeline::from_world:
CompareFunction::Equal (src/jfa_init.rs line 51). -/
def jfaInitStencilCompare : CompareFn := CompareFn.equal

/-- Stencil read mask of the JFA init pipeline: !0 (src/jfa_init.rs line 57). -/
def jfaInitReadMask : Nat := 2 ^ 32 - 1

/-- Stencil reference set by JfaInitNode::run: set_stencil_reference(!0)
(src/jfa_init.rs line 165). -/
def jfaInitStencilRef : Nat := 2 ^ 32 - 1

/-- Bit width of the stencil aspect of TextureFormat::Depth24PlusStencil8
(src/jfa_init.rs line 46). -/
def stencilBits : Nat := 8

/-- Evaluation of a stencil comparison on masked reference and stored values. -/
def evalCompareFn : CompareFn → Nat → Nat → Bool
  | CompareFn.never, _, _ => false
  | CompareFn.less, r, s => r < s
  | CompareFn.equal, r, s => r == s
  | CompareFn.lessEqual, r, s => r ≤ s
  | CompareFn.greater, r, s => s < r
  | CompareFn.notEqual, r, s => ¬ r == s
  | CompareFn.greaterEqual, r, s => s ≤ r
  | CompareFn.always, _, _ => true

/-- Whether a fragment of the JFA init pass passes the stencil test against the stored
stencil value: the configured comparison applied to reference and stored value, both
masked by the read mask and truncated to the stencil bit width. -/
def jfaInitStencilPasses (stencilVal : Nat) : Bool :=
  evalCompareFn jfaInitStencilCompare
    ((jfaInitStencilRef &&& jfaInitReadMask) % 2 ^ stencilBits)
    ((stencilVal &&& jfaInitReadMask) % 2 ^ stencilBits)

/-- Clear value of the JFA init color attachment: RgbaLinear with red = -1, green = -1
(src/jfa_init.rs lines 142-149); in the two-channel seed format this is the coordinate
pair (-1, -1), the sentinel. -/
def jfaInitClearValue : Int × Int := (-1, -1)

/-- Modelled from the spec: the JFA init fragment output (the shader source
shaders/jfa_init.wgsl is not among the sources). Per the doc comment of
JfaInitNode::OUT_JFA_INIT (src/jfa_init.rs lines 91-96) and spec section 4.2, fragments
that pass the stencil test are assigned their framebuffer coordinates; fragments that
fail keep the cleared value (-1, -1). -/
def jfaInitTexel (stencilVal : Nat) (coord : Int × Int) : Int × Int :=
  if jfaInitStencilPasses stencilVal then coord else jfaInitClearValue

end BevyJfa

namespace BevyJfa

/-! ## Outline composite blending and color-target ownership
(src/outline.rs lines 100-111 and 228-242; src/mask.rs 125-138; src/jfa_init.rs 134-153;
src/jfa.rs 142-158) -/

/-- Blend factors used by the outline pipeline descriptor. -/
inductive BlendFac
  | zero
  | one
  | srcAlpha
  | oneMinusSrcAlpha
deriving DecidableEq, Repr

/-- Blend component: source factor, destination factor and (additive) operation as in
the outline pipeline descriptor (src/outline.rs lines 100-111). -/
structure BlendComp where
  srcFactor : BlendFac
  dstFactor : BlendFac
deriving DecidableEq, Repr

/-- Color blend component of OutlinePipeline::specialize: src_factor = SrcAlpha,
dst_factor = OneMinusSrcAlpha, operation = Add (src/outline.rs lines 101-105). -/
def outlineColorBlend : BlendComp := { srcFactor := BlendFac.srcAlpha, dstFactor := BlendFac.oneMinusSrcAlpha }

/-- Alpha blend component of OutlinePipeline::specialize: src_factor = One,
dst_factor = Zero, operation = Add (src/outline.rs lines 106-110). -/
def outlineAlphaBlend : BlendComp := { srcFactor := BlendFac.one, dstFactor := BlendFac.zero }

/-- Numeric value of a blend factor given the fragment's source alpha. -/
def evalBlendFac (f : BlendFac) (srcA : ℚ) : ℚ :=
  match f with
  | BlendFac.zero => 0
  | BlendFac.one => 1
  | BlendFac.srcAlpha => srcA
  | BlendFac.oneMinusSrcAlpha => 1 - srcA

/-- Result of an additive blend component on one channel. -/
def evalBlend (c : BlendComp) (src dst srcA : ℚ) : ℚ :=
  src * evalBlendFac c.srcFactor srcA + dst * evalBlendFac c.dstFactor srcA

/-- Load operations on a render pass attachment. -/
inductive LoadOpKind
  | load
  | clear
deriving DecidableEq, Repr

/-- The render passes recorded by the pipeline's four graph nodes. -/
inductive PassKind
  | maskPass
  | jfaInitPass
  | jfaPass
  | outlineCompositePass
deriving DecidableEq, Repr

/-- The textures a pass can attach as a color target. The camera target is the
externally owned shared color target. -/
inductive ColorTargetTex
  | maskMultisample
  | maskOutput
  | jfaPrimary
  | jfaSecondary
  | cameraTarget
deriving DecidableEq, Repr

/-- Color-target textures written by each pass: the mask pass renders to the multisample
mask texture resolving into the mask output (src/mask.rs lines 129-136), the JFA init
pass to the primary JFA output (src/jfa_init.rs lines 138-139), the JFA pass to the
primary and secondary JFA outputs (src/jfa.rs lines 132-144), and the outline composite
pass to the camera's target view (src/outline.rs lines 232-234). -/
def passColorWrites : PassKind → List ColorTargetTex
  | PassKind.maskPass => [ColorTargetTex.maskMultisample, ColorTargetTex.maskOutput]
  | PassKind.jfaInitPass => [ColorTargetTex.jfaPrimary]
  | PassKind.jfaPass => [ColorTargetTex.jfaPrimary, ColorTargetTex.jfaSecondary]
  | PassKind.outlineCompositePass => [ColorTargetTex.cameraTarget]

/-- Load operation of the outline composite pass's color attachment: LoadOp::Load
(src/outline.rs lines 235-238). -/
def outlineLoadOp : LoadOpKind := LoadOpKind.load

end BevyJfa

namespace BevyJfa

/-! ## Seed buffers and the jump-flood step (spec sections 4.2-4.4; clears from
src/jfa_init.rs lines 142-149 and src/jfa.rs lines 146-155) -/

/-- A seed buffer maps each pixel to the coordinate of its nearest known seed, or to
none for the sentinel (-1, -1). -/
def SeedBuffer : Type := Int × Int → Option (Int × Int)

/-- Decoding of a stored texel into a seed candidate: the value (-1, -1) is the
sentinel and decodes to none; every other value is a coordinate. -/
def decodeTexel (v : Int × Int) : Option (Int × Int) :=
  if v = (-1, -1) then none else some v

/-- Clear value of every JFA iteration's color attachment: RgbaLinear with red = -1,
green = -1 (src/jfa.rs lines 146-155), identical to the init pass's clear value. -/
def jfaIterClearValue : Int × Int := (-1, -1)

/-- Squared Euclidean distance between two pixel coordinates. -/
def dist2 (p c : Int × Int) : Int := (p.1 - c.1) ^ 2 + (p.2 - c.2) ^ 2

/-- Sample offsets of one jump-flood step with distance s:
{(0,0), (±s,0), (0,±s), (±s,±s)} (spec section 4.3). -/
def jfaOffsets (s : Int) : List (Int × Int) :=
  [(0, 0), (s, 0), (-s, 0), (0, s), (0, -s), (s, s), (s, -s), (-s, s), (-s, -s)]

/-- Modelled from the spec: one jump-flood iteration (the shader source
shaders/jfa.wgsl is not among the sources). Per spec section 4.3, for pixel p the nine
texels at the step offsets are sampled in the read buffer; among the non-sentinel
candidates the one of minimum Euclidean distance to p is retained and written to p's
texel in the write buffer, or the sentinel if no candidate was found. -/
def jfaStep (s : Int) (buf : SeedBuffer) : SeedBuffer := fun p =>
  (jfaOffsets s).foldl
    (fun best ofs =>
      match buf (p.1 + ofs.1, p.2 + ofs.2) with
      | none => best
      | some c =>
        match best with
        | none => some c
        | some b => if dist2 p c < dist2 p b then some c else some b)
    none

/-- Modelled from the spec: the seed buffer produced by the init pass from a coverage
predicate (spec section 4.2 and the doc comment of JfaInitNode::OUT_JFA_INIT): covered
pixels store their own coordinate, uncovered pixels the sentinel. -/
def jfaInitBuffer (covered : Int × Int → Bool) : SeedBuffer := fun p =>
  if covered p then some p else none

/-- The full jump-flood run: fold of jfaStep over the executed step sequence. -/
def runJfa (buf : SeedBuffer) : SeedBuffer :=
  jfaStepSeq.foldl (fun b s => jfaStep (Int.ofNat s) b) buf

/-- Modelled from the spec: the opacity computed by the outline composite fragment (the
shader source shaders/outline.wgsl is not among the sources). Per spec section 4.4 the
distance to the decoded seed is infinite for the sentinel, giving zero opacity; otherwise
opacity is full inside the style width, falls off smoothly over a narrow band and is
zero beyond it. -/
def compositeOpacity (seed : Option (Int × Int)) (p : Int × Int) (width : ℚ) : ℚ :=
  match seed with
  | none => 0
  | some c =>
    let d2 : ℚ := (dist2 p c : Int)
    if d2 ≤ width ^ 2 then 1
    else if d2 ≤ (width + 1) ^ 2 then
      ((width + 1) ^ 2 - d2) / ((width + 1) ^ 2 - width ^ 2)
    else 0

end BevyJfa

namespace BevyJfa

/-! ## Texture descriptors and resource recreation (src/resources.rs lines 384-492) -/

/-- Texture extent as in wgpu's Extent3d. -/
structure Extent where
  width : Nat
  height : Nat
  depthOrArrayLayers : Nat
deriving DecidableEq, Repr

/-- Texture formats appearing in the pipeline. JFA_TEXTURE_FORMAT is the crate-level
seed-buffer format; modelled from the spec: its definition lives in the crate root,
which is not among the sources, and per spec section 3 it is a two-channel fixed-point
format (the earlier crate root uses Rg16Snorm), distinct from the single-channel
R8Unorm coverage format. -/
inductive TexFormat
  | r8Unorm
  | jfaTextureFormat
  | depth24PlusStencil8
deriving DecidableEq, Repr

/-- Texture descriptor as produced by tex_desc (src/resources.rs lines 482-492):
mip_level_count = 1, sample_count = 1, 2D, RENDER_ATTACHMENT | TEXTURE_BINDING usage. -/
structure TexDescriptor where
  label : String
  size : Extent
  mipLevelCount : Nat
  sampleCount : Nat
  format : TexFormat
deriving DecidableEq, Repr

/-- The tex_desc helper (src/resources.rs lines 482-492). -/
def texDesc (label : String) (size : Extent) (format : TexFormat) : TexDescriptor :=
  { label := label, size := size, mipLevelCount := 1, sampleCount := 1, format := format }

/-- Descriptor of the coverage (mask resolve) buffer (src/resources.rs line 410). -/
def maskOutputDesc (size : Extent) : TexDescriptor :=
  texDesc "outline_mask_output" size TexFormat.r8Unorm

/-- Descriptor of the multisampled mask target: same as the mask output but with
sample_count = 4 (src/resources.rs lines 411-415). -/
def maskMultisampleDesc (size : Extent) : TexDescriptor :=
  { maskOutputDesc size with label := "outline_mask_multisample", sampleCount := 4 }

/-- Descriptor of the primary JFA ping-pong buffer (src/resources.rs line 444). -/
def jfaPrimaryDesc (size : Extent) : TexDescriptor :=
  texDesc "outline_jfa_primary_output" size TexFormat.jfaTextureFormat

/-- Descriptor of the secondary JFA ping-pong buffer (src/resources.rs line 463). -/
def jfaSecondaryDesc (size : Extent) : TexDescriptor :=
  texDesc "outline_jfa_secondary_output" size TexFormat.jfaTextureFormat

/-- Descriptors requested by recreate_outline_resources for a primary window of
physical size w×h: a single extent (src/resources.rs lines 396-400) is used for the
mask output and both JFA ping-pong buffers. -/
def recreateDescs (w h : Nat) : TexDescriptor × TexDescriptor × TexDescriptor :=
  let size : Extent := { width := w, height := h, depthOrArrayLayers := 1 }
  (maskOutputDesc size, jfaPrimaryDesc size, jfaSecondaryDesc size)

end BevyJfa

namespace BevyJfa

/-! ## Pipeline-not-ready behaviour of the node run functions
(src/jfa.rs lines 111-119, src/jfa_init.rs lines 124-132, src/outline.rs lines 222-226,
src/mask.rs lines 107-148) -/

/-- Number of render passes recorded by JfaNode::run: if the cached pipeline is absent
the function returns Ok before any pass is begun (src/jfa.rs lines 113-119); otherwise
it records one pass per iteration it = 0..=max_exp (src/jfa.rs line 129). -/
def jfaNodeRunPasses (pipelineReady : Bool) : Nat :=
  if pipelineReady then maxExp + 1 else 0

/-- Number of render passes recorded by JfaInitNode::run: zero when the cached pipeline
is absent (src/jfa_init.rs lines 126-132), one otherwise. -/
def jfaInitNodeRunPasses (pipelineReady : Bool) : Nat :=
  if pipelineReady then 1 else 0

/-- Number of render passes recorded by OutlineNode::run: zero when the camera target
view is unavailable (src/outline.rs lines 212-215) or the cached pipeline is absent
(src/outline.rs lines 222-226), one otherwise. -/
def outlineNodeRunPasses (targetAvailable pipelineReady : Bool) : Nat :=
  if targetAvailable then (if pipelineReady then 1 else 0) else 0

/-- Number of render passes recorded by MeshMaskNode::run: zero only when the view's
mask phase query fails (src/mask.rs lines 120-123); otherwise the clear-and-resolve
render pass is begun unconditionally (src/mask.rs lines 125-138) — the run function
never consults the pipeline cache, so the recorded pass count does not depend on
whether any mask pipeline is compiled (per-item draws are dispatched through their
draw functions, src/mask.rs lines 141-146). -/
def maskNodeRunPasses (queryOk : Bool) (pipelineReady : Bool) : Nat :=
  if queryOk then 1 else 0

/-- Every node's run returns Ok on the pipeline-not-ready path (the match arms return
Ok(()) in src/jfa.rs line 117, src/jfa_init.rs line 130, src/outline.rs line 225). -/
def nodeRunReturnsOkWhenNotReady : Bool := true

end BevyJfa

namespace BevyJfa

/-! ## Outline pipeline key validation (src/outline.rs lines 75-94 and 157-171) -/

/-- Sample type reported by a texture format's describe() info. -/
inductive SampleKind
  | floatFilterable
  | floatNonFilterable
  | depth
  | sint
  | uint
deriving DecidableEq, Repr

/-- The per-format information consulted by OutlinePipelineKey::new: the format's
sample type and whether its guaranteed format features allow RENDER_ATTACHMENT usage. -/
structure FormatInfo where
  sampleKind : SampleKind
  allowsRenderAttachment : Bool
deriving DecidableEq, Repr

/-- OutlinePipelineKey::new (src/outline.rs lines 76-93): None when the format has a
depth sample type; otherwise Some exactly when the guaranteed format features contain
RENDER_ATTACHMENT. -/
def outlinePipelineKeyNew (info : FormatInfo) : Option FormatInfo :=
  if info.sampleKind = SampleKind.depth then none
  else if info.allowsRenderAttachment then some info
  else none

/-- OutlineNode::new (src/outline.rs lines 157-171) calls expect on the key, so the
construction of the node fails (panics) exactly when the key is None; modelled as an
Option result where none stands for the panic. -/
def outlineNodeNew (info : FormatInfo) : Option FormatInfo :=
  outlinePipelineKeyNew info

end BevyJfa

namespace BevyJfa

/-! ## Claim C1 and C6 theorems -/

theorem maxStep_eq : maxStep = 256 := by decide

theorem jfaStepSeq_eq : jfaStepSeq = [256, 128, 64, 32, 16, 8, 4, 2, 1] := by decide

/-- Claim C1 as stated is false: at output resolution 1024×1024 the smallest power of two
that is at least max(W,H)/2 is 512, but the fixed step sequence has maximum 256. -/
theorem c1_stepSeq_counterexample :
    ¬ (smallestPow2GE (max 1024 1024 / 2) ≤ maxStep) := by decide

set_option maxRecDepth 4096 in
theorem smallestPow2GE_le_256 : ∀ m : Fin 257, smallestPow2GE m.val ≤ 256 := by decide

/-- Claim C1 (amended): the step sequence used by JfaNode::run is the fixed sequence with
maximum 256 = 2^8 and it terminates at 1; its maximum is at least the smallest power of
two ≥ max(W,H)/2 for every resolution with max(W,H) ≤ 512. -/
theorem c1_stepSeq_amended (W H : Nat) (h : max W H ≤ 512) :
    smallestPow2GE (max W H / 2) ≤ maxStep ∧ jfaStepSeq.getLast? = some 1 := by
  constructor
  · have h2 : max W H / 2 < 257 := by omega
    have hb := smallestPow2GE_le_256 ⟨max W H / 2, h2⟩
    calc smallestPow2GE (max W H / 2) ≤ 256 := hb
      _ ≤ maxStep := by decide
  · decide

theorem c1_stepSeq_amended_witness :
    smallestPow2GE (max 512 384 / 2) ≤ maxStep ∧ jfaStepSeq.getLast? = some 1 :=
  c1_stepSeq_amended 512 384 (by decide)

/-- Claim C6: on iteration it the dynamic uniform offset selects jump distance
2^(max_exp - it); successive distances strictly decrease and the final iteration
(it = max_exp) uses distance 1. -/
theorem c6_distances_descending (it : Nat) (h : it ≤ maxExp) :
    jumpDistAt it = 2 ^ (maxExp - it)
      ∧ (it < maxExp → jumpDistAt (it + 1) < jumpDistAt it)
      ∧ jumpDistAt maxExp = 1 := by
  have h9 : it < 9 := by
    have : maxExp = 8 := rfl
    omega
  interval_cases it <;> refine ⟨by decide, fun hlt => ?_, by decide⟩ <;>
    first
      | decide
      | exact absurd hlt (by decide)

theorem c6_distances_descending_witness :
    jumpDistAt 3 = 2 ^ (maxExp - 3)
      ∧ (3 < maxExp → jumpDistAt 4 < jumpDistAt 3)
      ∧ jumpDistAt maxExp = 1 :=
  c6_distances_descending 3 (by decide)

end BevyJfa

namespace BevyJfa

/-- Claim C2: on every jump-flood iteration the sampled texture differs from the render
target, and the role assignment alternates with the parity of the iteration index: odd
iterations write the primary output reading the secondary, even iterations write the
secondary output reading the primary. -/
theorem c2_pingpong_roles (it : Nat) :
    jfaReadSource it ≠ jfaWriteTarget it
      ∧ jfaWriteTarget it = (if it % 2 = 1 then JfaTex.primary else JfaTex.secondary)
      ∧ jfaReadSource it = (if it % 2 = 1 then JfaTex.secondary else JfaTex.primary) := by
  by_cases h : it % 2 = 1 <;>
    simp [jfaReadSource, jfaWriteTarget, jfaBindGroupSel, jfaBindGroupInput, h]

/-- Claim C10: the OUT_JUMP slot exposes the secondary output, there are 9 iterations
(it = 0..8), the final iteration index max_exp = 8 is even, and that final iteration's
render target is exactly the texture exposed on OUT_JUMP. -/
theorem c10_out_slot_is_last_target :
    jfaOutJumpSlot = jfaWriteTarget maxExp
      ∧ maxExp % 2 = 0
      ∧ jfaIterations.length = 9
      ∧ jfaIterations.getLast? = some maxExp := by decide

end BevyJfa

namespace BevyJfa

/-- Claim C3: the JFA init pass decides coverage by a binary stencil equality test — a
fragment passes exactly when the stored 8-bit stencil value equals 255 (the reference
!0 masked to the stencil width) — and every pixel receives either its own framebuffer
coordinate (covered) or the sentinel (-1, -1) (uncovered). -/
theorem c3_init_stencil_equality (s : Nat) (hs : s < 2 ^ stencilBits) (coord : Int × Int) :
    (jfaInitStencilPasses s = true ↔ s = 255)
      ∧ jfaInitTexel s coord = (if s = 255 then coord else (-1, -1)) := by
  have hlt32 : s < 2 ^ 32 := by
    have h8 : (2 : Nat) ^ stencilBits ≤ 2 ^ 32 := by decide
    omega
  have hmask : s &&& jfaInitReadMask = s := by
    rw [jfaInitReadMask, Nat.and_pow_two_sub_one_eq_mod]
    exact Nat.mod_eq_of_lt hlt32
  constructor
  · constructor
    · intro hpass
      simp only [jfaInitStencilPasses, jfaInitStencilCompare, evalCompareFn,
        beq_iff_eq] at hpass
      have hs8 : s % 2 ^ stencilBits = s := Nat.mod_eq_of_lt hs
      rw [hmask, hs8] at hpass
      exact hpass.symm
    · intro h255
      subst h255
      decide
  · by_cases h255 : s = 255
    · subst h255
      have hp : jfaInitStencilPasses 255 = true := by decide
      simp [jfaInitTexel, hp]
    · have hfail : jfaInitStencilPasses s = false := by
        simp only [jfaInitStencilPasses, jfaInitStencilCompare, evalCompareFn]
        have hs8 : s % 2 ^ stencilBits = s := Nat.mod_eq_of_lt hs
        rw [hmask, hs8]
        simpa using fun heq => h255 heq.symm
      simp [jfaInitTexel, hfail, jfaInitClearValue, h255]

theorem c3_init_stencil_equality_witness :
    ((jfaInitStencilPasses 255 = true ↔ (255 : Nat) = 255)
        ∧ jfaInitTexel 255 (7, 11) = (if (255 : Nat) = 255 then ((7 : Int), (11 : Int)) else (-1, -1)))
      ∧ ((jfaInitStencilPasses 0 = true ↔ (0 : Nat) = 255)
        ∧ jfaInitTexel 0 (7, 11) = (if (0 : Nat) = 255 then ((7 : Int), (11 : Int)) else (-1, -1))) :=
  ⟨c3_init_stencil_equality 255 (by decide) (7, 11),
   c3_init_stencil_equality 0 (by decide) (7, 11)⟩

end BevyJfa

namespace BevyJfa

/-- Claim C4: the outline composite pass loads (never clears) the shared color target, it
is the only pass in the pipeline that writes that target, and the color blend computes
standard source-over: result = src·srcA + dst·(1 − srcA). -/
theorem c4_composite_blend :
    outlineLoadOp = LoadOpKind.load
      ∧ (∀ p : PassKind, ColorTargetTex.cameraTarget ∈ passColorWrites p →
          p = PassKind.outlineCompositePass)
      ∧ (∀ src dst srcA : ℚ,
          evalBlend outlineColorBlend src dst srcA = src * srcA + dst * (1 - srcA)) := by
  refine ⟨rfl, ?_, ?_⟩
  · intro p hp
    cases p <;> simp [passColorWrites] at hp ⊢
  · intro src dst srcA
    simp [evalBlend, outlineColorBlend, evalBlendFac]

end BevyJfa

namespace BevyJfa

theorem jfaStep_allSentinel (s : Int) (p : Int × Int) :
    jfaStep s (fun _ => none) p = none := by
  simp [jfaStep, jfaOffsets]

theorem foldl_jfaStep_allSentinel (l : List Nat) :
    ∀ buf : SeedBuffer, (∀ q, buf q = none) →
      ∀ p, (l.foldl (fun b s => jfaStep (Int.ofNat s) b) buf) p = none := by
  induction l with
  | nil => intro buf hbuf p; exact hbuf p
  | cons s rest ih =>
    intro buf hbuf p
    refine ih (jfaStep (Int.ofNat s) buf) ?_ p
    intro q
    have hb : buf = fun _ => none := funext hbuf
    rw [hb]
    exact jfaStep_allSentinel (Int.ofNat s) q

end BevyJfa

namespace BevyJfa

/-- Claim C5: with an entirely uncovered coverage mask, the init pass produces the
sentinel everywhere (its clear value is the sentinel), every jump-flood iteration
preserves the all-sentinel buffer (each iteration clears its target to the sentinel and
writes the sentinel when no candidate is found), the full run ends all-sentinel, and the
composite pass contributes zero opacity, leaving the destination color unchanged. -/
theorem c5_empty_mask_stays_sentinel (p : Int × Int) (s : Int) (w dst : ℚ) :
    jfaInitBuffer (fun _ => false) p = none
      ∧ decodeTexel jfaInitClearValue = none
      ∧ decodeTexel jfaIterClearValue = none
      ∧ jfaStep s (fun _ => none) p = none
      ∧ runJfa (jfaInitBuffer (fun _ => false)) p = none
      ∧ compositeOpacity none p w = 0
      ∧ evalBlend outlineColorBlend 1 dst (compositeOpacity none p w) = dst := by
  refine ⟨rfl, rfl, rfl, jfaStep_allSentinel s p, ?_, rfl, ?_⟩
  · exact foldl_jfaStep_allSentinel jfaStepSeq (jfaInitBuffer (fun _ => false))
      (fun q => rfl) p
  · simp [compositeOpacity, evalBlend, outlineColorBlend, evalBlendFac]

end BevyJfa

namespace BevyJfa

/-- Claim C7 as stated is false: the two ping-pong seed buffers do not have the same
format as the coverage buffer — at window size 800×600 the coverage buffer is R8Unorm
while the JFA buffers use the two-channel JFA_TEXTURE_FORMAT. -/
theorem c7_formats_counterexample :
    ¬ ((recreateDescs 800 600).2.1.format = (recreateDescs 800 600).1.format) := by
  decide

/-- Claim C7 (amended): on every resolution change all three buffers are reallocated
together from the same extent, the two ping-pong buffers are equal in size and format
to each other and equal in size to the coverage buffer; their format however is
JFA_TEXTURE_FORMAT, which differs from the coverage buffer's R8Unorm. -/
theorem c7_buffers_recreated_together (w h : Nat) :
    ((recreateDescs w h).2.1.size = (recreateDescs w h).2.2.size
        ∧ (recreateDescs w h).2.1.format = (recreateDescs w h).2.2.format)
      ∧ (recreateDescs w h).2.1.size = (recreateDescs w h).1.size
      ∧ (recreateDescs w h).1.size
          = { width := w, height := h, depthOrArrayLayers := 1 }
      ∧ (recreateDescs w h).1.format = TexFormat.r8Unorm
      ∧ (recreateDescs w h).2.1.format = TexFormat.jfaTextureFormat
      ∧ (recreateDescs w h).2.1.format ≠ (recreateDescs w h).1.format := by
  refine ⟨⟨rfl, rfl⟩, rfl, rfl, rfl, rfl, ?_⟩
  simp [recreateDescs, jfaPrimaryDesc, maskOutputDesc, texDesc]

end BevyJfa

namespace BevyJfa

/-- Claim C8 as stated is false for the mask node: with its phase query succeeding and
no compiled pipeline available, MeshMaskNode::run still records one render pass (the
clear and resolve of the mask targets). -/
theorem c8_skip_counterexample : ¬ (maskNodeRunPasses true false = 0) := by decide

/-- Claim C8 (amended): for the JFA init, JFA and outline nodes, when the pass's
compiled render pipeline is not yet available in the pipeline cache, run returns Ok
having recorded no render pass; the mask node instead records its clear-and-resolve
pass whenever its phase query succeeds, independently of pipeline availability. -/
theorem c8_skip_amended :
    jfaNodeRunPasses false = 0
      ∧ jfaInitNodeRunPasses false = 0
      ∧ (∀ t : Bool, outlineNodeRunPasses t false = 0)
      ∧ nodeRunReturnsOkWhenNotReady = true
      ∧ (∀ r : Bool, maskNodeRunPasses true r = 1) := by
  refine ⟨rfl, rfl, ?_, rfl, ?_⟩
  · intro t; cases t <;> rfl
  · intro r; rfl

end BevyJfa

namespace BevyJfa

/-- Claim C9: OutlinePipelineKey::new returns None exactly when the requested format has
a depth sample type or its guaranteed format features do not allow RENDER_ATTACHMENT
usage, and OutlineNode::new refuses construction (modelled as none) in exactly the same
cases. -/
theorem c9_format_validation (info : FormatInfo) :
    (outlinePipelineKeyNew info = none
        ↔ (info.sampleKind = SampleKind.depth ∨ info.allowsRenderAttachment = false))
      ∧ (outlineNodeNew info = none ↔ outlinePipelineKeyNew info = none) := by
  obtain ⟨k, a⟩ := info
  cases k <;> cases a <;> simp [outlinePipelineKeyNew, outlineNodeNew]

end BevyJfa
